import Mathlib

/-!
Verification of `psycopg/adapter_binary.c` (the Binary adapter of psycopg2).

The development shallowly embeds the C file: byte strings (Python string /
buffer contents, SQL literals, error messages) are `List Nat` byte sequences;
the adapter state is a structure mirroring `binaryObject` (fields `wrapped`,
`buffer`, `conn`); CPython error returns are `Except PyErr`.  The libpq
escaping routines are external to this repository and are modelled from the
specification of the escaping leaf (section 4.1 of the design document).
-/

/-- Byte sequences: each element is one byte value. -/
abbrev Bytes := List Nat

/-- A CPython-level error raised by the adapter code.  `typeError` carries the
message bytes; `noMemory` is `PyErr_NoMemory`. -/
inductive PyErr where
  | typeError (msg : Bytes)
  | noMemory
  deriving DecidableEq, Repr

/-- The message bytes set at `adapter_binary.c` line 86, i.e. the ASCII text
of the `TypeError` message complaining that a non-string object cannot be
escaped (29 bytes; byte 39 is the apostrophe). -/
def cantEscapeMsg : Bytes :=
  [99, 97, 110, 39, 116, 32, 101, 115, 99, 97, 112, 101, 32,
   110, 111, 110, 45, 115, 116, 114, 105, 110, 103, 32, 111, 98, 106, 101, 99, 116]

/-- The wrapped Python value as the quoting code discriminates it:
`PyString_Check(self->wrapped) || PyBuffer_Check(self->wrapped)` succeeds on a
byte-sequence-like object (whose buffer contents we carry), anything else
takes the error branch. -/
inductive PyValue where
  | bytes (data : Bytes)
  | other

/-- Modelled from the spec: the libpq connection handle (`PGconn`) as consumed
by the escaping leaf (spec section 4.1).  The connection-aware escaping
routine is the server-dialect dependent map `escape`; its exact encoding is
opaque to the adapter, but escaping is an expansion that produces output if
and only if it is given input (`escape_empty_iff`, forced by the round-trip
contract of section 4.1).  `allocFails` models the escaping routine being
unable to allocate its output buffer (spec section 7, OutOfMemory). -/
structure PGconn where
  escape : Bytes → Bytes
  escape_empty_iff : ∀ d : Bytes, escape d = [] ↔ d = []
  allocFails : Bool

/-- Modelled from the spec: `PQescapeByteaConn`, the connection-aware escaping
variant (spec section 4.1).  It returns `none` (a NULL buffer, OutOfMemory)
exactly when allocation fails; it never fails on empty input (section 4.1:
the routine never signals on empty input). -/
def PQescapeByteaConn (conn : PGconn) (from_ : Bytes) : Option Bytes :=
  if conn.allocFails ∧ from_ ≠ [] then none else some (conn.escape from_)

/-- Modelled from the spec: `PQescapeBytea`, the context-free escaping variant
(spec section 4.1: assumes default encoding and conservative escaping rules).
The encoding is opaque to the adapter; we realise it as the conservative
octal-backslash dialect named in section 6, expanding every byte to a
backslash followed by three octal digits. -/
def PQescapeBytea (from_ : Bytes) : Bytes :=
  from_.flatMap fun b => [92, 48 + b / 64 % 8, 48 + b / 8 % 8, 48 + b % 8]

/-- The connection object as read by the adapter: the libpq handle
(`->pgconn`, NULL once the connection is closed) and the `->equote` flag
(whether the server wants the extended `E` literal marker). -/
structure connectionObject where
  pgconn : Option PGconn
  equote : Bool

/-- The adapter state, mirroring `binaryObject`: the wrapped value, the
optional bound connection, and the cached quoted literal (`->buffer`, NULL
until computed). -/
structure binaryObject where
  wrapped : PyValue
  conn : Option connectionObject
  buffer : Option Bytes

/-- `binary_setup` (`adapter_binary.c` lines 168-185): store the wrapped
value, clear the connection and the cache. -/
def binary_setup (str : PyValue) : binaryObject :=
  { wrapped := str, conn := none, buffer := none }

/-- `binary_escape` (lines 38-48, modern build): with a non-NULL `PGconn` use
the connection-aware variant, otherwise the context-free one.  `none` is a
NULL result (allocation failure). -/
def binary_escape (from_ : Bytes) (conn : Option PGconn) : Option Bytes :=
  match conn with
  | some c => PQescapeByteaConn c from_
  | none => some (PQescapeBytea from_)

/-- Byte 69, the literal `E` marker. -/
def eMarker : Nat := 69

/-- Byte 39, the single-quote delimiter of the literal. -/
def quoteB : Nat := 39

/-- The bytes of the cast suffix closing the literal: quote, colon, colon,
then the ASCII of the bytea type name. -/
def byteaCast : Bytes := [39, 58, 58, 98, 121, 116, 101, 97]

/-- The literal produced for a zero-length escape result (line 79): two
quotes followed by the cast suffix. -/
def emptyByteaLit : Bytes := quoteB :: byteaCast

/-- `binary_quote` (lines 52-91).  A byte-sequence-like wrapped value is
escaped through `binary_escape` with the bound connection handle (NULL if
unbound or closed); a NULL escape result raises OutOfMemory and leaves the
state untouched; a non-empty escape result is wrapped in quotes with the `E`
marker when a connection is bound and its `equote` flag is set (lines 74-77);
an empty escape result yields the empty literal (line 79).  A wrapped value
that is neither string nor buffer raises TypeError and leaves the state
untouched (lines 84-88). -/
def binary_quote (self : binaryObject) : binaryObject × Except PyErr Bytes :=
  match self.wrapped with
  | PyValue.bytes data =>
    match binary_escape data (self.conn.bind connectionObject.pgconn) with
    | none => (self, Except.error PyErr.noMemory)
    | some toBuf =>
      let buf : Bytes :=
        if toBuf.length > 0 then
          (if (self.conn.map connectionObject.equote).getD false
             then [eMarker, quoteB] else [quoteB]) ++ toBuf ++ byteaCast
        else emptyByteaLit
      ({ self with buffer := some buf }, Except.ok buf)
  | PyValue.other => (self, Except.error (PyErr.typeError cantEscapeMsg))

/-- `binary_str` (lines 95-103): return the cached buffer if populated;
otherwise run `binary_quote` and return the (possibly still NULL) buffer,
which on the success path is exactly the value `binary_quote` returned. -/
def binary_str (self : binaryObject) : binaryObject × Except PyErr Bytes :=
  match self.buffer with
  | some b => (self, Except.ok b)
  | none => binary_quote self

/-- `binary_getquoted` (lines 105-109): delegates to `binary_str`. -/
def binary_getquoted (self : binaryObject) : binaryObject × Except PyErr Bytes :=
  binary_str self

/-- `binary_prepare` (lines 111-127): the old reference is released
(`Py_XDECREF`, reference counting not modelled) and a non-NULL argument is
stored; with a NULL argument the guard at line 120 skips the store, so the
field keeps its previous value.  Returns Py_None unconditionally. -/
def binary_prepare (self : binaryObject) (conn : Option connectionObject) :
    binaryObject × Except PyErr Unit :=
  match conn with
  | some c => ({ self with conn := some c }, Except.ok ())
  | none => (self, Except.ok ())

/-- A protocol marker passed to `__conform__`: either the well-known
`isqlquoteType` marker or any other protocol object. -/
inductive PyProto where
  | isqlquote
  | otherProto (id : Nat)
  deriving DecidableEq, Repr

/-- `binary_conform` (lines 129-143): return the adapter itself for the
`isqlquoteType` marker, Py_None (modelled `none`) for anything else.  The
state is not touched. -/
def binary_conform (self : binaryObject) (proto : PyProto) : Option binaryObject :=
  match proto with
  | PyProto.isqlquote => some self
  | PyProto.otherProto _ => none

/-- Number of `binary_escape` invocations one call of `binary_quote`
performs: exactly one on the byte-sequence branch (line 67), zero on the
error branch. -/
def quoteEscapeCalls (self : binaryObject) : Nat :=
  match self.wrapped with
  | PyValue.bytes _ => 1
  | PyValue.other => 0

/-- Number of `binary_escape` invocations one call of `binary_str` (hence
`binary_getquoted`) performs: zero on a cache hit, otherwise those of
`binary_quote`. -/
def strEscapeCalls (self : binaryObject) : Nat :=
  match self.buffer with
  | some _ => 0
  | none => quoteEscapeCalls self

/-- One externally invocable operation of the adapter. -/
inductive AdapterOp where
  | prepareOp (conn : Option connectionObject)
  | getquotedOp
  | strOp
  | conformOp (proto : PyProto)

/-- The state reached after running one operation (results discarded). -/
def applyOp (s : binaryObject) (op : AdapterOp) : binaryObject :=
  match op with
  | AdapterOp.prepareOp c => (binary_prepare s c).1
  | AdapterOp.getquotedOp => (binary_getquoted s).1
  | AdapterOp.strOp => (binary_str s).1
  | AdapterOp.conformOp _ => s

/-- Run a sequence of adapter operations from a state. -/
def runOps (s : binaryObject) (ops : List AdapterOp) : binaryObject :=
  ops.foldl applyOp s

/-- A sample libpq handle whose escaping map is the identity, used for
concrete evaluations. -/
def idPGconn : PGconn :=
  { escape := fun d => d, escape_empty_iff := fun _ => Iff.rfl, allocFails := false }

/-- A sample libpq handle whose escaping routine cannot allocate its output
buffer. -/
def oomPGconn : PGconn :=
  { escape := fun d => d, escape_empty_iff := fun _ => Iff.rfl, allocFails := true }

/-- A sample libpq handle whose escaping map repeats every byte, producing
output distinguishable from the context-free dialect. -/
def dupPGconn : PGconn where
  escape := fun d => d.flatMap fun b => [b, b]
  escape_empty_iff := by intro d; cases d <;> simp
  allocFails := false

/-- The context-free escaping of a byte sequence is empty exactly on empty
input. -/
theorem PQescapeBytea_eq_nil_iff (d : Bytes) : PQescapeBytea d = [] ↔ d = [] := by
  cases d <;> simp [PQescapeBytea]

/-- The escape step of `binary_quote` never returns NULL on empty input, and
returns the empty escaped sequence there. -/
theorem binary_escape_nil (conn : Option PGconn) : binary_escape [] conn = some [] := by
  cases conn with
  | none => simp [binary_escape, PQescapeBytea]
  | some c =>
    simp [binary_escape, PQescapeByteaConn, (c.escape_empty_iff []).mpr rfl]

/-- C1: an adapter wrapping a zero-length byte sequence yields exactly the
literal bytes of the empty bytea literal from `get_quoted`, for every
connection binding state (unbound, bound to a closed connection, bound with
or without the extended-escape flag, even when allocation would fail on
non-empty input). -/
theorem getquoted_empty_input (conn : Option connectionObject) :
    binary_getquoted { wrapped := PyValue.bytes [], conn := conn, buffer := none } =
      ({ wrapped := PyValue.bytes [], conn := conn, buffer := some emptyByteaLit },
       Except.ok emptyByteaLit) := by
  simp [binary_getquoted, binary_str, binary_quote,
    binary_escape_nil (conn.bind connectionObject.pgconn), emptyByteaLit]

/-- C3: quoting an adapter whose wrapped value is not byte-sequence-like
raises TypeError with the exact message bytes of line 86 and leaves the
state (in particular the cached-literal field) untouched; through
`get_quoted` the cache stays empty. -/
theorem getquoted_type_rejection (conn : Option connectionObject) (buf : Option Bytes) :
    binary_quote { wrapped := PyValue.other, conn := conn, buffer := buf } =
      ({ wrapped := PyValue.other, conn := conn, buffer := buf },
       Except.error (PyErr.typeError cantEscapeMsg)) ∧
    binary_getquoted { wrapped := PyValue.other, conn := conn, buffer := none } =
      ({ wrapped := PyValue.other, conn := conn, buffer := none },
       Except.error (PyErr.typeError cantEscapeMsg)) := by
  exact ⟨rfl, rfl⟩

/-- C5: when the escaping routine fails to allocate, `get_quoted` surfaces
OutOfMemory and the state is unchanged — no cache entry is written. -/
theorem getquoted_oom_no_cache (data : Bytes) (conn : Option connectionObject)
    (hfail : binary_escape data (conn.bind connectionObject.pgconn) = none) :
    binary_getquoted { wrapped := PyValue.bytes data, conn := conn, buffer := none } =
      ({ wrapped := PyValue.bytes data, conn := conn, buffer := none },
       Except.error PyErr.noMemory) := by
  simp [binary_getquoted, binary_str, binary_quote, hfail]

/-- A connection object bound to the allocation-failing handle. -/
def oomConnObj : connectionObject := { pgconn := some oomPGconn, equote := false }

/-- Witness for C5: a one-byte value bound to a connection whose escaping
routine cannot allocate. -/
theorem getquoted_oom_no_cache_witness :
    binary_getquoted { wrapped := PyValue.bytes [0], conn := some oomConnObj, buffer := none } =
      ({ wrapped := PyValue.bytes [0], conn := some oomConnObj, buffer := none },
       Except.error PyErr.noMemory) :=
  getquoted_oom_no_cache [0] (some oomConnObj)
    (by simp [binary_escape, PQescapeByteaConn, oomConnObj, oomPGconn])

/-- C9: the capability probe returns the adapter itself exactly for the
isqlquote marker; every other marker gets the Py_None sentinel. -/
theorem conform_probe (s : binaryObject) (p : PyProto) :
    (binary_conform s p = some s ↔ p = PyProto.isqlquote) ∧
    (p ≠ PyProto.isqlquote → binary_conform s p = none) := by
  cases p <;> simp [binary_conform]

/-- Witness for C9: the probe on a fresh adapter with the isqlquote marker
and with a different marker. -/
theorem conform_probe_witness :
    binary_conform (binary_setup PyValue.other) PyProto.isqlquote =
      some (binary_setup PyValue.other) ∧
    binary_conform (binary_setup PyValue.other) (PyProto.otherProto 0) = none :=
  ⟨(conform_probe (binary_setup PyValue.other) PyProto.isqlquote).1.mpr rfl,
   (conform_probe (binary_setup PyValue.other) (PyProto.otherProto 0)).2 (by simp)⟩

/-- C2: on a non-empty wrapped byte sequence with a bound connection whose
escaping can allocate, `get_quoted` returns a literal that begins with the
`E` marker and a quote when the equote flag is set, begins with a quote (and
not the `E` marker) when it is not, and in both cases ends with the
quote-and-cast suffix enclosing the escaped payload. -/
theorem getquoted_prefix_selection (data : Bytes) (co : connectionObject)
    (hne : data ≠ [])
    (halloc : ∀ c, co.pgconn = some c → c.allocFails = false) :
    ∃ l : Bytes,
      (binary_getquoted { wrapped := PyValue.bytes data, conn := some co, buffer := none }).2 =
        Except.ok l ∧
      (co.equote = true → ∃ r1 : Bytes, l = eMarker :: quoteB :: r1) ∧
      (co.equote = false → (∃ r2 : Bytes, l = quoteB :: r2) ∧ l.head? ≠ some eMarker) ∧
      ∃ m : Bytes, l = m ++ byteaCast := by
  have hesc : ∃ t : Bytes, t ≠ [] ∧ binary_escape data co.pgconn = some t := by
    cases hp : co.pgconn with
    | none =>
      refine ⟨PQescapeBytea data, ?_, ?_⟩
      · simpa [Ne, PQescapeBytea_eq_nil_iff] using hne
      · simp [binary_escape, hp]
    | some c =>
      refine ⟨c.escape data, ?_, ?_⟩
      · simpa [Ne, c.escape_empty_iff] using hne
      · simp [binary_escape, hp, PQescapeByteaConn, halloc c hp]
  obtain ⟨t, ht, hE⟩ := hesc
  have hlen : t.length > 0 := List.length_pos.mpr ht
  refine ⟨(if co.equote then [eMarker, quoteB] else [quoteB]) ++ t ++ byteaCast, ?_, ?_, ?_, ?_⟩
  · simp [binary_getquoted, binary_str, binary_quote, hE, hlen]
  · intro hq
    exact ⟨t ++ byteaCast, by simp [hq]⟩
  · intro hq
    refine ⟨⟨t ++ byteaCast, by simp [hq]⟩, ?_⟩
    simp [hq, quoteB, eMarker]
  · exact ⟨(if co.equote then [eMarker, quoteB] else [quoteB]) ++ t, by simp⟩

/-- A connection object bound to the identity handle with the equote flag
set. -/
def eqConnObj : connectionObject := { pgconn := some idPGconn, equote := true }

/-- The adapter wrapping the two bytes of ab, bound to `eqConnObj`. -/
def abAdapter : binaryObject :=
  { wrapped := PyValue.bytes [97, 98], conn := some eqConnObj, buffer := none }

/-- Witness for C2: a two-byte value on a bound connection with the equote
flag set. -/
theorem getquoted_prefix_selection_witness :
    ∃ l : Bytes,
      (binary_getquoted abAdapter).2 = Except.ok l ∧
      (eqConnObj.equote = true → ∃ r1 : Bytes, l = eMarker :: quoteB :: r1) ∧
      (eqConnObj.equote = false → (∃ r2 : Bytes, l = quoteB :: r2) ∧ l.head? ≠ some eMarker) ∧
      ∃ m : Bytes, l = m ++ byteaCast :=
  getquoted_prefix_selection [97, 98] eqConnObj (by simp)
    (fun c hc => by simp [eqConnObj] at hc; subst hc; rfl)

/-- C4: on a byte-sequence value whose escape succeeds, `get_quoted` called
twice with no intervening bind returns the same literal both times, the
second call returns the cached literal on an unchanged state, and the
escaping routine runs at most once across both calls. -/
theorem getquoted_idempotent (data : Bytes) (conn : Option connectionObject)
    (hesc : binary_escape data (conn.bind connectionObject.pgconn) ≠ none) :
    ∃ l : Bytes,
      binary_getquoted { wrapped := PyValue.bytes data, conn := conn, buffer := none } =
        ({ wrapped := PyValue.bytes data, conn := conn, buffer := some l }, Except.ok l) ∧
      binary_getquoted { wrapped := PyValue.bytes data, conn := conn, buffer := some l } =
        ({ wrapped := PyValue.bytes data, conn := conn, buffer := some l }, Except.ok l) ∧
      strEscapeCalls { wrapped := PyValue.bytes data, conn := conn, buffer := none } +
        strEscapeCalls { wrapped := PyValue.bytes data, conn := conn, buffer := some l } ≤ 1 := by
  cases hE : binary_escape data (conn.bind connectionObject.pgconn) with
  | none => exact absurd hE hesc
  | some toBuf =>
    refine ⟨if toBuf.length > 0 then
        (if (conn.map connectionObject.equote).getD false
          then [eMarker, quoteB] else [quoteB]) ++ toBuf ++ byteaCast
      else emptyByteaLit, ?_, ?_, ?_⟩
    · simp [binary_getquoted, binary_str, binary_quote, hE]
    · simp [binary_getquoted, binary_str]
    · simp [strEscapeCalls, quoteEscapeCalls]

/-- Witness for C4: a one-byte value on an unbound adapter. -/
theorem getquoted_idempotent_witness :
    ∃ l : Bytes,
      binary_getquoted { wrapped := PyValue.bytes [97], conn := none, buffer := none } =
        ({ wrapped := PyValue.bytes [97], conn := none, buffer := some l }, Except.ok l) ∧
      binary_getquoted { wrapped := PyValue.bytes [97], conn := none, buffer := some l } =
        ({ wrapped := PyValue.bytes [97], conn := none, buffer := some l }, Except.ok l) ∧
      strEscapeCalls { wrapped := PyValue.bytes [97], conn := none, buffer := none } +
        strEscapeCalls { wrapped := PyValue.bytes [97], conn := none, buffer := some l } ≤ 1 :=
  getquoted_idempotent [97] none (by simp [binary_escape])

/-- C6: rebinding an adapter that already holds a computed literal changes
only the connection-reference field — the cached literal and wrapped value
survive — and a later `get_quoted` returns the cached literal on an
unchanged state with zero escape invocations. -/
theorem rebind_preserves_cache (s : binaryObject) (l : Bytes) (co2 : connectionObject)
    (hbuf : s.buffer = some l) :
    (binary_prepare s (some co2)).1 =
      { wrapped := s.wrapped, conn := some co2, buffer := some l } ∧
    binary_getquoted (binary_prepare s (some co2)).1 =
      ((binary_prepare s (some co2)).1, Except.ok l) ∧
    strEscapeCalls (binary_prepare s (some co2)).1 = 0 := by
  refine ⟨?_, ?_, ?_⟩ <;>
    simp [binary_prepare, binary_getquoted, binary_str, strEscapeCalls, hbuf]

/-- An adapter with a populated cache, for concrete evaluations. -/
def cachedAdapter : binaryObject :=
  { wrapped := PyValue.bytes [1], conn := none, buffer := some emptyByteaLit }

/-- A closed connection object with the equote flag set. -/
def rebindConnObj : connectionObject := { pgconn := none, equote := true }

/-- Witness for C6: rebinding the cached adapter to a new connection. -/
theorem rebind_preserves_cache_witness :
    (binary_prepare cachedAdapter (some rebindConnObj)).1 =
      { wrapped := cachedAdapter.wrapped, conn := some rebindConnObj,
        buffer := some emptyByteaLit } ∧
    binary_getquoted (binary_prepare cachedAdapter (some rebindConnObj)).1 =
      ((binary_prepare cachedAdapter (some rebindConnObj)).1, Except.ok emptyByteaLit) ∧
    strEscapeCalls (binary_prepare cachedAdapter (some rebindConnObj)).1 = 0 :=
  rebind_preserves_cache cachedAdapter emptyByteaLit rebindConnObj rfl

/-- A connection object whose handle escapes by repeating bytes, with the
equote flag clear. -/
def dupConnObj : connectionObject := { pgconn := some dupPGconn, equote := false }

/-- An adapter wrapping one byte, bound to `dupConnObj`. -/
def boundAdapter : binaryObject :=
  { wrapped := PyValue.bytes [97], conn := some dupConnObj, buffer := none }

/-- Counterexample to C7: on a bound adapter, prepare with a NULL connection
does not replace the stored reference (the old connection is still there),
and a subsequent `get_quoted` still escapes through the old connection
handle, producing output different from context-free escaping of the same
adapter never bound. -/
theorem bind_null_counterexample :
    (binary_prepare boundAdapter none).1.conn = some dupConnObj ∧
    (binary_getquoted (binary_prepare boundAdapter none).1).2 =
      Except.ok [39, 97, 97, 39, 58, 58, 98, 121, 116, 101, 97] ∧
    (binary_getquoted { wrapped := PyValue.bytes [97], conn := none, buffer := none }).2 =
      Except.ok [39, 92, 49, 52, 49, 39, 58, 58, 98, 121, 116, 101, 97] := by
  refine ⟨rfl, ?_, ?_⟩ <;>
    simp [binary_prepare, binary_getquoted, binary_str, binary_quote, binary_escape,
      PQescapeByteaConn, PQescapeBytea, boundAdapter, dupConnObj, dupPGconn,
      byteaCast, quoteB, eMarker, emptyByteaLit]

/-- C7 amended: prepare with one argument always succeeds; a non-NULL
argument replaces the stored connection reference; a NULL argument leaves the
whole state — in particular the stored connection reference — unchanged. -/
theorem bind_success_replaces (s : binaryObject) (conn : Option connectionObject) :
    (binary_prepare s conn).2 = Except.ok () ∧
    (∀ co, conn = some co → (binary_prepare s conn).1 = { s with conn := some co }) ∧
    (conn = none → (binary_prepare s conn).1 = s) := by
  cases conn <;> simp [binary_prepare]

/-- Witness for the amended C7: prepare with a NULL connection on a fresh
adapter succeeds and leaves the state unchanged. -/
theorem bind_success_replaces_witness :
    (binary_prepare (binary_setup (PyValue.bytes [2])) none).2 = Except.ok () ∧
    (binary_prepare (binary_setup (PyValue.bytes [2])) none).1 =
      binary_setup (PyValue.bytes [2]) :=
  ⟨(bind_success_replaces (binary_setup (PyValue.bytes [2])) none).1,
   (bind_success_replaces (binary_setup (PyValue.bytes [2])) none).2.2 rfl⟩

/-- C8: an adapter never bound to a connection still quotes: the literal is
built from the context-free escaping variant and starts with a plain quote,
never the `E` marker. -/
theorem getquoted_unbound (data : Bytes) :
    ∃ l : Bytes,
      binary_getquoted { wrapped := PyValue.bytes data, conn := none, buffer := none } =
        ({ wrapped := PyValue.bytes data, conn := none, buffer := some l }, Except.ok l) ∧
      l = (if (PQescapeBytea data).length > 0
            then [quoteB] ++ PQescapeBytea data ++ byteaCast else emptyByteaLit) ∧
      l.head? = some quoteB ∧ l.head? ≠ some eMarker := by
  refine ⟨_, ?_, rfl, ?_, ?_⟩
  · simp [binary_getquoted, binary_str, binary_quote, binary_escape]
  · cases hE : PQescapeBytea data <;> simp [hE, emptyByteaLit]
  · cases hE : PQescapeBytea data <;> simp [hE, emptyByteaLit, quoteB, eMarker]

/-- The wrapped value survives one call of `binary_quote`. -/
theorem binary_quote_wrapped (s : binaryObject) : (binary_quote s).1.wrapped = s.wrapped := by
  rcases s with ⟨w, conn, buf⟩
  cases w with
  | other => rfl
  | bytes data =>
    cases hE : binary_escape data (conn.bind connectionObject.pgconn) with
    | none => simp [binary_quote, hE]
    | some toBuf => simp [binary_quote, hE]

/-- The wrapped value survives one call of `binary_str`. -/
theorem binary_str_wrapped (s : binaryObject) : (binary_str s).1.wrapped = s.wrapped := by
  rcases s with ⟨w, conn, buf⟩
  cases buf with
  | some b => rfl
  | none => exact binary_quote_wrapped ⟨w, conn, none⟩

/-- The wrapped value survives any single adapter operation. -/
theorem applyOp_wrapped (s : binaryObject) (op : AdapterOp) :
    (applyOp s op).wrapped = s.wrapped := by
  cases op with
  | prepareOp c => cases c <;> rfl
  | getquotedOp => exact binary_str_wrapped s
  | strOp => exact binary_str_wrapped s
  | conformOp p => rfl

/-- C10: the wrapped value stored at construction is never mutated or
replaced: after any sequence of adapter operations (prepare, getquoted, str,
conform) starting from a freshly constructed adapter, the wrapped-value
field still equals the constructor argument. -/
theorem wrapped_never_mutated (v : PyValue) (ops : List AdapterOp) :
    (runOps (binary_setup v) ops).wrapped = v := by
  have main : ∀ (ops : List AdapterOp) (s : binaryObject),
      (runOps s ops).wrapped = s.wrapped := by
    intro ops
    induction ops with
    | nil => intro s; rfl
    | cons op rest ih =>
      intro s
      calc (runOps s (op :: rest)).wrapped
          = (runOps (applyOp s op) rest).wrapped := rfl
        _ = (applyOp s op).wrapped := ih (applyOp s op)
        _ = s.wrapped := applyOp_wrapped s op
  exact main ops (binary_setup v)
